import Mathlib

/-!
Shallow embedding of `src/pypulseq/events.py`: the event timing/validation
core (`EventBaseClass`, `Delay`, `ADC`).  Python floats are modelled as
exact rationals (`ℚ`), Python ints as `ℤ`.  Exceptions are explicit: a
constructor returns `Except Err _` (no instance on failure); the inherited
`delay` setter returns the post-call state paired with an optional error,
because in the source the two validation raises happen before any field
assignment, while `_calc_duration` runs after `self._delay` is mutated.
-/

namespace PyPulseq

/-- Error classes for the raises in `events.py`, using the taxonomy the
spec assigns to them: `RangeError` for sign/positivity bounds,
`AlignmentError` for raster misalignment, `ConfigurationError` for the
dwell/duration exclusivity check; plus Python's `AttributeError`, raised
when assigning to the getter-only `dwell` property or when reading a
`__slots__` attribute that was never assigned. -/
inductive Err where
  | RangeError
  | AlignmentError
  | ConfigurationError
  | AttributeError
deriving DecidableEq

/-- Modelled from the spec: `pypulseq.opts.Opts` (the RasterSource
collaborator) is not under src; per the spec it only supplies read-only
raster-time scalars per event category (sampling/ADC raster, RF raster). -/
structure Opts where
  adc_raster_time : ℚ
  rf_raster_time : ℚ
deriving DecidableEq

/-- Modelled from the spec: `pypulseq.check_timing.__div_check` is not
under src; per the spec it decides whether a value is an integer multiple
of the raster time, within floating-point tolerance.  In exact rational
arithmetic the tolerance vanishes: the quotient must be an integer. -/
def div_check (value raster_time : ℚ) : Bool :=
  (value / raster_time).den == 1

/-- State of a `Delay` event: the slots `_delay`, `_duration`,
`_num_samples`, `_raster_time`.  All four are assigned before
`Delay.__init__` returns, so none is optional. -/
structure DelayState where
  delay : ℚ
  duration : ℚ
  num_samples : ℤ
  raster_time : ℚ
deriving DecidableEq

/-- `Delay._calc_duration`: `self._duration = self._delay`. -/
def Delay.calc_duration (s : DelayState) : DelayState :=
  { s with duration := s.delay }

/-- `EventBaseClass.delay` setter as inherited by `Delay`: raise if the
value is negative, raise if it fails `div_check` against the raster time,
else store the value and recompute the duration.  The first component is
the state after the call; both raises happen before `self._delay = value`,
so on failure it is the unchanged input state. -/
def Delay.set_delay (s : DelayState) (value : ℚ) : DelayState × Option Err :=
  if value < 0 then (s, some .RangeError)
  else if div_check value s.raster_time = false then (s, some .AlignmentError)
  else (Delay.calc_duration { s with delay := value }, none)

/-- `Delay.__init__`: bind `_raster_time` from the system's RF raster,
set `_num_samples = 1`, then assign the delay through the validated
`delay` setter.  The setter reads only `_raster_time`, never the
placeholder `_delay`/`_duration` slots, so seeding them with 0 is
unobservable. -/
def Delay.init (delay : ℚ) (system : Opts) : Except Err DelayState :=
  match Delay.set_delay
      { delay := 0, duration := 0, num_samples := 1,
        raster_time := system.rf_raster_time } delay with
  | (s, none) => .ok s
  | (_, some e) => .error e

/-- `Delay.num_samples` setter: prints a notice and mutates nothing.  The
second component is the printed diagnostic line. -/
def Delay.set_num_samples (s : DelayState) (_value : ℤ) : DelayState × String :=
  (s, "Number of samples cannot be set for Delay event.")

/-- State of an `ADC` event.  `_dwell` and `_duration` are `Option`
because `ADC.__init__` can return with those `__slots__` never assigned
(when the supplied dwell or duration equals 0); reading an unset slot
raises `AttributeError`. -/
structure ADCState where
  delay : ℚ
  duration : Option ℚ
  num_samples : ℤ
  raster_time : ℚ
  dwell : Option ℚ
  freq_offset : ℚ
  phase_offset : ℚ
deriving DecidableEq

/-- `ADC.dwell` getter; reading the slot when unset raises
`AttributeError`. -/
def ADC.get_dwell (s : ADCState) : Except Err ℚ :=
  match s.dwell with
  | some d => .ok d
  | none => .error .AttributeError

/-- `EventBaseClass.duration` getter on an `ADC`; reading the slot when
unset raises `AttributeError`. -/
def ADC.get_duration (s : ADCState) : Except Err ℚ :=
  match s.duration with
  | some d => .ok d
  | none => .error .AttributeError

/-- `ADC._calc_duration`: `_total_dur = num_samples * dwell + delay`;
raise unless `_total_dur >= 0`; else store it as `_duration`.  Reading
`self._dwell` when the slot is unset raises `AttributeError`. -/
def ADC.calc_duration (s : ADCState) : Except Err ADCState :=
  match s.dwell with
  | none => .error .AttributeError
  | some dw =>
      let total : ℚ := (s.num_samples : ℚ) * dw + s.delay
      if ¬ total ≥ 0 then .error .RangeError
      else .ok { s with duration := some total }

/-- Python's `x is not None and x < 0`, used by two validation checks in
`ADC.__init__`. -/
def suppliedNeg (x : Option ℚ) : Bool :=
  match x with
  | some v => decide (v < 0)
  | none => false

/-- `ADC.__init__`, line for line.  Six validation checks (note: no
raster-alignment check on `delay`), then the slots `_raster_time`,
`_freq_offset`, `_phase_offset`, `_num_samples`, `_delay` are assigned.
Then `if duration is not None and duration > 0: self.dwell = duration /
num_samples` assigns to the getter-only property `dwell`, which raises
`AttributeError`; `if dwell is not None and dwell > 0:` stores `_dwell`
and calls `_calc_duration()` (the source's local rebinding `duration =
dwell * num_samples` is dead code).  The validation guarantees at most one
of `dwell`/`duration` is supplied, so the two `if`s are modelled as a
nested match; when the supplied dwell or duration equals 0 neither branch
runs and `_dwell`/`_duration` stay unset. -/
def ADC.init (num_samples : ℤ) (delay : ℚ) (dwell : Option ℚ)
    (duration : Option ℚ) (freq_offset : ℚ) (phase_offset : ℚ)
    (system : Opts) : Except Err ADCState :=
  if dwell.isNone && duration.isNone then .error .ConfigurationError
  else if dwell.isSome && duration.isSome then .error .ConfigurationError
  else if num_samples < 1 then .error .RangeError
  else if suppliedNeg duration then .error .RangeError
  else if suppliedNeg dwell then .error .RangeError
  else if delay < 0 then .error .RangeError
  else
    let s : ADCState :=
      { delay := delay, duration := none, num_samples := num_samples,
        raster_time := system.adc_raster_time, dwell := none,
        freq_offset := freq_offset, phase_offset := phase_offset }
    match duration with
    | some D => if D > 0 then .error .AttributeError else .ok s
    | none =>
        match dwell with
        | some dw =>
            if dw > 0 then ADC.calc_duration { s with dwell := some dw }
            else .ok s
        | none => .ok s

/-- `ADC.freq_offset` setter: unvalidated plain store. -/
def ADC.set_freq_offset (s : ADCState) (value : ℚ) : ADCState :=
  { s with freq_offset := value }

/-- `ADC.phase_offset` setter: unvalidated plain store. -/
def ADC.set_phase_offset (s : ADCState) (value : ℚ) : ADCState :=
  { s with phase_offset := value }

/-- `EventBaseClass.delay` setter as inherited by `ADC`.  The two raises
happen before `self._delay = value`; `_calc_duration()` then runs on the
updated state, and if it raises, `_delay` has already been mutated, which
the first component records. -/
def ADC.set_delay (s : ADCState) (value : ℚ) : ADCState × Option Err :=
  if value < 0 then (s, some .RangeError)
  else if div_check value s.raster_time = false then (s, some .AlignmentError)
  else
    match ADC.calc_duration { s with delay := value } with
    | .ok s2 => (s2, none)
    | .error e => ({ s with delay := value }, some e)

/-- Invariant established by the dwell-path constructor and preserved by
the delay setter: at least one sample, non-negative delay, and a stored
positive dwell. -/
def ADCinv (s : ADCState) : Prop :=
  1 ≤ s.num_samples ∧ 0 ≤ s.delay ∧ ∃ dw, s.dwell = some dw ∧ 0 < dw

/-- Helper: the delay setter on a `Delay` rejects a negative value. -/
theorem Delay.set_delay_neg (s : DelayState) (v : ℚ) (hv : v < 0) :
    Delay.set_delay s v = (s, some .RangeError) := by
  simp [Delay.set_delay, hv]

/-- Helper: the delay setter on a `Delay` rejects a misaligned value. -/
theorem Delay.set_delay_unaligned (s : DelayState) (v : ℚ) (h0 : 0 ≤ v)
    (hdc : div_check v s.raster_time = false) :
    Delay.set_delay s v = (s, some .AlignmentError) := by
  simp [Delay.set_delay, not_lt.mpr h0, hdc]

/-- Helper: the delay setter on a `Delay` stores an aligned non-negative
value and recomputes the duration. -/
theorem Delay.set_delay_ok (s : DelayState) (v : ℚ) (h0 : 0 ≤ v)
    (hdc : div_check v s.raster_time = true) :
    Delay.set_delay s v = ({ s with delay := v, duration := v }, none) := by
  simp [Delay.set_delay, not_lt.mpr h0, hdc, Delay.calc_duration]

/-- Helper: `ADC._calc_duration` succeeds when the dwell slot is set and
the total is non-negative. -/
theorem ADC.calc_duration_ok (s : ADCState) (dw : ℚ) (hdw : s.dwell = some dw)
    (htot : 0 ≤ (s.num_samples : ℚ) * dw + s.delay) :
    ADC.calc_duration s =
      .ok { s with duration := some ((s.num_samples : ℚ) * dw + s.delay) } := by
  simp [ADC.calc_duration, hdw, htot]

/-- Helper: the dwell path of `ADC.__init__` with a positive dwell, at
least one sample and a non-negative delay succeeds, storing the dwell and
the recomputed duration. -/
theorem ADC.init_dwell_path (n : ℤ) (delay dw fo po : ℚ) (sys : Opts)
    (hn : 1 ≤ n) (hdel : 0 ≤ delay) (hdw : 0 < dw) :
    ADC.init n delay (some dw) none fo po sys =
      .ok { delay := delay, duration := some ((n : ℚ) * dw + delay),
            num_samples := n, raster_time := sys.adc_raster_time,
            dwell := some dw, freq_offset := fo, phase_offset := po } := by
  have hcast : (0 : ℚ) ≤ (n : ℚ) := by exact_mod_cast le_trans zero_le_one hn
  have htot : (0 : ℚ) ≤ (n : ℚ) * dw + delay :=
    add_nonneg (mul_nonneg hcast hdw.le) hdel
  simp [ADC.init, not_lt.mpr hn, suppliedNeg, not_lt.mpr hdw.le,
        not_lt.mpr hdel, hdw, ADC.calc_duration, htot]

/-- Helper: the delay setter on an `ADC` rejects a negative value. -/
theorem ADC.set_delay_negative (s : ADCState) (v : ℚ) (hv : v < 0) :
    ADC.set_delay s v = (s, some .RangeError) := by
  simp [ADC.set_delay, hv]

/-- Helper: the delay setter on an `ADC` rejects a misaligned value. -/
theorem ADC.set_delay_misaligned (s : ADCState) (v : ℚ) (h0 : 0 ≤ v)
    (hdc : div_check v s.raster_time = false) :
    ADC.set_delay s v = (s, some .AlignmentError) := by
  simp [ADC.set_delay, not_lt.mpr h0, hdc]

/-- Helper: the delay setter on an `ADC` with a stored dwell stores an
aligned non-negative value and recomputes the duration. -/
theorem ADC.set_delay_success (s : ADCState) (v dw : ℚ) (h0 : 0 ≤ v)
    (hdc : div_check v s.raster_time = true) (hdw : s.dwell = some dw)
    (htot : 0 ≤ (s.num_samples : ℚ) * dw + v) :
    ADC.set_delay s v =
      ({ s with delay := v,
                duration := some ((s.num_samples : ℚ) * dw + v) }, none) := by
  have hcalc := ADC.calc_duration_ok { s with delay := v } dw hdw htot
  simp [ADC.set_delay, not_lt.mpr h0, hdc, hcalc]

/-- Helper: a successful delay set on an `ADC` implies the value was
non-negative and `_calc_duration` succeeded on the updated state. -/
theorem ADC.set_delay_none_inv (s : ADCState) (v : ℚ) (s2 : ADCState)
    (h : ADC.set_delay s v = (s2, none)) :
    0 ≤ v ∧ ADC.calc_duration { s with delay := v } = .ok s2 := by
  unfold ADC.set_delay at h
  split at h
  · simp at h
  · split at h
    · simp at h
    · rename_i hv _
      refine ⟨not_lt.mp hv, ?_⟩
      split at h
      · rename_i s' heq
        simp only [Prod.mk.injEq] at h
        rw [heq, h.1]
      · simp at h

/-- Helper: a successful `_calc_duration` only updates `_duration`. -/
theorem ADC.calc_duration_ok_inv (s s2 : ADCState)
    (h : ADC.calc_duration s = .ok s2) :
    s2.num_samples = s.num_samples ∧ s2.delay = s.delay ∧
      s2.dwell = s.dwell := by
  unfold ADC.calc_duration at h
  split at h
  · simp at h
  · dsimp only at h
    split at h
    · simp at h
    · simp only [Except.ok.injEq] at h
      rw [← h]
      exact ⟨rfl, rfl, rfl⟩

/-- C1: the claimed duration-path round-trip law fails on the code.  When a
positive `duration` is supplied, `ADC.__init__` executes `self.dwell =
duration / num_samples`, an assignment to the getter-only `dwell` property,
which raises `AttributeError`; so construction with `duration = 1/100`,
`num_samples = 100`, `delay = 0` never succeeds, instead of yielding
`dwell = D / n` and `duration = D`. -/
theorem C1_duration_path_raises :
    ADC.init 100 0 none (some (1/100)) 0 0 ⟨1/10000000, 1/1000000⟩ =
      .error .AttributeError := by
  norm_num [ADC.init, suppliedNeg]

/-- C2: the atomic-construction claim fails on the code.  `dwell = 0` with
`num_samples = 1`, `delay = 0` passes every validation check, yet the
returned instance has the `_dwell` and `_duration` slots never assigned,
and reading either getter raises `AttributeError`: a partially-initialized
instance is visible. -/
theorem C2_dwell_zero_partial :
    ADC.init 1 0 (some 0) none 0 0 ⟨1/10000000, 1/1000000⟩ =
      .ok { delay := 0, duration := none, num_samples := 1,
            raster_time := 1/10000000, dwell := none,
            freq_offset := 0, phase_offset := 0 } ∧
    ADC.get_dwell
        { delay := 0, duration := none, num_samples := 1,
          raster_time := 1/10000000, dwell := none,
          freq_offset := 0, phase_offset := 0 } = .error .AttributeError ∧
    ADC.get_duration
        { delay := 0, duration := none, num_samples := 1,
          raster_time := 1/10000000, dwell := none,
          freq_offset := 0, phase_offset := 0 } = .error .AttributeError := by
  refine ⟨?_, rfl, rfl⟩
  norm_num [ADC.init, suppliedNeg]

/-- C3 counterexample: `ADC.__init__` performs no raster-alignment check on
`delay` — with `adc_raster_time = 1/1000000` the delay `3/2000000` is not
an integer multiple of the raster (`div_check` is `false`), yet
construction succeeds instead of failing with AlignmentError. -/
theorem C3_counterexample :
    div_check (3/2000000)
        ((⟨1/1000000, 1/1000000⟩ : Opts).adc_raster_time) = false ∧
    ADC.init 1 (3/2000000) (some (1/1000)) none 0 0 ⟨1/1000000, 1/1000000⟩ =
      .ok { delay := 3/2000000, duration := some (2003/2000000),
            num_samples := 1, raster_time := 1/1000000,
            dwell := some (1/1000), freq_offset := 0, phase_offset := 0 } := by
  constructor
  · norm_num [div_check]
  · norm_num [ADC.init, suppliedNeg, ADC.calc_duration]

/-- C3 (amended): a misaligned delay is rejected with AlignmentError by
`Delay.__init__` and by the inherited delay setter (on both `Delay` and
`ADC`); `ADC.__init__`, however, performs no alignment check on `delay`
and accepts any non-negative delay on the dwell path. -/
theorem C3_alignment_amended :
    (∀ (delay : ℚ) (sys : Opts), 0 ≤ delay →
        div_check delay sys.rf_raster_time = false →
        Delay.init delay sys = .error .AlignmentError) ∧
    (∀ (s : DelayState) (v : ℚ), 0 ≤ v →
        div_check v s.raster_time = false →
        Delay.set_delay s v = (s, some .AlignmentError)) ∧
    (∀ (s : ADCState) (v : ℚ), 0 ≤ v →
        div_check v s.raster_time = false →
        ADC.set_delay s v = (s, some .AlignmentError)) ∧
    (∀ (n : ℤ) (delay dw fo po : ℚ) (sys : Opts), 1 ≤ n → 0 ≤ delay →
        0 < dw →
        ADC.init n delay (some dw) none fo po sys =
          .ok { delay := delay, duration := some ((n : ℚ) * dw + delay),
                num_samples := n, raster_time := sys.adc_raster_time,
                dwell := some dw, freq_offset := fo, phase_offset := po }) := by
  refine ⟨?_, Delay.set_delay_unaligned, ADC.set_delay_misaligned,
    ADC.init_dwell_path⟩
  intro delay sys h0 hdc
  unfold Delay.init
  rw [Delay.set_delay_unaligned _ _ h0 hdc]

/-- C3 witness: with RF raster `1/1000000`, the misaligned delay
`3/2000000` makes `Delay.__init__` fail with AlignmentError. -/
theorem C3_alignment_amended_witness :
    Delay.init (3/2000000) ⟨1/1000000, 1/1000000⟩ =
      .error .AlignmentError :=
  C3_alignment_amended.1 (3/2000000) ⟨1/1000000, 1/1000000⟩ (by norm_num)
    (by norm_num [div_check])

/-- C4: the inherited delay setter, on both event types: a negative value
fails with RangeError and a misaligned value with AlignmentError, in both
cases before any field assignment (the returned state is the unchanged
input); an aligned non-negative value is stored and the duration is
recomputed from the current fields. -/
theorem C4_delay_setter_contract :
    (∀ (s : DelayState) (v : ℚ), v < 0 →
        Delay.set_delay s v = (s, some .RangeError)) ∧
    (∀ (s : DelayState) (v : ℚ), 0 ≤ v →
        div_check v s.raster_time = false →
        Delay.set_delay s v = (s, some .AlignmentError)) ∧
    (∀ (s : DelayState) (v : ℚ), 0 ≤ v →
        div_check v s.raster_time = true →
        Delay.set_delay s v = ({ s with delay := v, duration := v }, none)) ∧
    (∀ (s : ADCState) (v : ℚ), v < 0 →
        ADC.set_delay s v = (s, some .RangeError)) ∧
    (∀ (s : ADCState) (v : ℚ), 0 ≤ v →
        div_check v s.raster_time = false →
        ADC.set_delay s v = (s, some .AlignmentError)) ∧
    (∀ (s : ADCState) (v dw : ℚ), 0 ≤ v →
        div_check v s.raster_time = true →
        s.dwell = some dw → 0 ≤ (s.num_samples : ℚ) * dw + v →
        ADC.set_delay s v =
          ({ s with delay := v,
                    duration := some ((s.num_samples : ℚ) * dw + v) },
           none)) :=
  ⟨Delay.set_delay_neg, Delay.set_delay_unaligned, Delay.set_delay_ok,
   ADC.set_delay_negative, ADC.set_delay_misaligned, ADC.set_delay_success⟩

/-- C4 witness: on a `Delay` with raster `1/1000000`, setting `-1` fails
with RangeError and leaves the state unchanged; setting the aligned value
`2/1000000` stores it and recomputes the duration. -/
theorem C4_delay_setter_contract_witness :
    Delay.set_delay ⟨0, 0, 1, 1/1000000⟩ (-1) =
      (⟨0, 0, 1, 1/1000000⟩, some .RangeError) ∧
    Delay.set_delay ⟨0, 0, 1, 1/1000000⟩ (2/1000000) =
      (⟨2/1000000, 2/1000000, 1, 1/1000000⟩, none) :=
  ⟨C4_delay_setter_contract.1 ⟨0, 0, 1, 1/1000000⟩ (-1) (by norm_num),
   C4_delay_setter_contract.2.2.1 ⟨0, 0, 1, 1/1000000⟩ (2/1000000)
     (by norm_num) (by norm_num [div_check])⟩

/-- C5: the dwell path: with `dwell = d > 0`, `num_samples = n ≥ 1` and
`delay = 0`, construction succeeds with `duration = n * d`; and
`_calc_duration` sets `duration = num_samples * dwell + delay`, failing
with RangeError exactly when that total is negative. -/
theorem C5_dwell_path_duration :
    (∀ (n : ℤ) (dw fo po : ℚ) (sys : Opts), 1 ≤ n → 0 < dw →
        ADC.init n 0 (some dw) none fo po sys =
          .ok { delay := 0, duration := some ((n : ℚ) * dw),
                num_samples := n, raster_time := sys.adc_raster_time,
                dwell := some dw, freq_offset := fo, phase_offset := po }) ∧
    (∀ (s : ADCState) (dw : ℚ), s.dwell = some dw →
        ((s.num_samples : ℚ) * dw + s.delay < 0 →
          ADC.calc_duration s = .error .RangeError) ∧
        (0 ≤ (s.num_samples : ℚ) * dw + s.delay →
          ADC.calc_duration s =
            .ok { s with
                    duration := some ((s.num_samples : ℚ) * dw + s.delay) })) := by
  constructor
  · intro n dw fo po sys hn hdw
    have h := ADC.init_dwell_path n 0 dw fo po sys hn le_rfl hdw
    simpa using h
  · intro s dw hdw
    refine ⟨?_, fun hpos => ADC.calc_duration_ok s dw hdw hpos⟩
    intro hneg
    simp [ADC.calc_duration, hdw, not_le.mpr hneg]

/-- C5 witness: `num_samples = 256`, `dwell = 1/1000`, `delay = 0` gives a
successful construction with `duration = 256 * (1/1000)`. -/
theorem C5_dwell_path_duration_witness :
    ADC.init 256 0 (some (1/1000)) none 0 0 ⟨1/10000000, 1/1000000⟩ =
      .ok { delay := 0, duration := some (((256 : ℤ) : ℚ) * (1/1000)),
            num_samples := 256, raster_time := 1/10000000,
            dwell := some (1/1000), freq_offset := 0, phase_offset := 0 } :=
  C5_dwell_path_duration.1 256 (1/1000) 0 0 ⟨1/10000000, 1/1000000⟩
    (by norm_num) (by norm_num)

/-- C6: `Delay.__init__` with an aligned non-negative delay succeeds with
`num_samples = 1` and `duration = delay`; and `duration = delay` holds
after every successful delay mutation. -/
theorem C6_delay_event_duration :
    (∀ (delay : ℚ) (sys : Opts), 0 ≤ delay →
        div_check delay sys.rf_raster_time = true →
        Delay.init delay sys =
          .ok { delay := delay, duration := delay, num_samples := 1,
                raster_time := sys.rf_raster_time }) ∧
    (∀ (s : DelayState) (v : ℚ) (s2 : DelayState),
        Delay.set_delay s v = (s2, none) → s2.duration = s2.delay) := by
  constructor
  · intro delay sys h0 hdc
    unfold Delay.init
    rw [Delay.set_delay_ok _ _ h0 hdc]
  · intro s v s2 h
    unfold Delay.set_delay at h
    split at h
    · simp at h
    · split at h
      · simp at h
      · simp only [Prod.mk.injEq] at h
        rw [← h.1]
        rfl

/-- C6 witness: the spec's concrete scenario — RF raster `1/1000000`,
delay `2/1000000` — constructs a `Delay` with `duration = 2/1000000`. -/
theorem C6_delay_event_duration_witness :
    Delay.init (2/1000000) ⟨1/1000000, 1/1000000⟩ =
      .ok { delay := 2/1000000, duration := 2/1000000, num_samples := 1,
            raster_time := 1/1000000 } :=
  C6_delay_event_duration.1 (2/1000000) ⟨1/1000000, 1/1000000⟩
    (by norm_num) (by norm_num [div_check])

/-- C7: supplying neither or both of `dwell`/`duration` always fails with
ConfigurationError, for every value of the other arguments (including
invalid ones: the exclusivity checks come first). -/
theorem C7_config_exclusivity :
    (∀ (n : ℤ) (delay fo po : ℚ) (sys : Opts),
        ADC.init n delay none none fo po sys = .error .ConfigurationError) ∧
    (∀ (n : ℤ) (delay dw D fo po : ℚ) (sys : Opts),
        ADC.init n delay (some dw) (some D) fo po sys =
          .error .ConfigurationError) := by
  constructor
  · intro n delay fo po sys
    simp [ADC.init]
  · intro n delay dw D fo po sys
    simp [ADC.init]

/-- C8: the `num_samples` setter on a `Delay` never raises, changes no
field, and only emits the diagnostic notice. -/
theorem C8_num_samples_setter_noop :
    ∀ (s : DelayState) (v : ℤ),
      Delay.set_num_samples s v =
        (s, "Number of samples cannot be set for Delay event.") :=
  fun _ _ => rfl

/-- C9: the `freq_offset` and `phase_offset` setters always succeed and
change only their own field: `delay`, `duration`, `dwell`, `num_samples`,
`raster_time`, and the other offset are all unchanged. -/
theorem C9_offset_setters_frame :
    ∀ (s : ADCState) (v : ℚ),
      ADC.set_freq_offset s v = { s with freq_offset := v } ∧
      (ADC.set_freq_offset s v).delay = s.delay ∧
      (ADC.set_freq_offset s v).duration = s.duration ∧
      (ADC.set_freq_offset s v).dwell = s.dwell ∧
      (ADC.set_freq_offset s v).num_samples = s.num_samples ∧
      (ADC.set_freq_offset s v).raster_time = s.raster_time ∧
      (ADC.set_freq_offset s v).phase_offset = s.phase_offset ∧
      ADC.set_phase_offset s v = { s with phase_offset := v } ∧
      (ADC.set_phase_offset s v).delay = s.delay ∧
      (ADC.set_phase_offset s v).duration = s.duration ∧
      (ADC.set_phase_offset s v).dwell = s.dwell ∧
      (ADC.set_phase_offset s v).num_samples = s.num_samples ∧
      (ADC.set_phase_offset s v).raster_time = s.raster_time ∧
      (ADC.set_phase_offset s v).freq_offset = s.freq_offset :=
  fun _ _ => ⟨rfl, rfl, rfl, rfl, rfl, rfl, rfl, rfl, rfl, rfl, rfl, rfl,
    rfl, rfl⟩

/-- C10: for every ADC reachable through the dwell path and successful
delay mutations, `num_samples * dwell + delay ≥ 0`, so the RangeError
branch of `_calc_duration` is unreachable: the dwell-path constructor
establishes the invariant (one or more samples, non-negative delay, stored
positive dwell), the delay setter preserves it, and under it
`_calc_duration` never returns RangeError. -/
theorem C10_range_error_unreachable :
    (∀ (n : ℤ) (delay dw fo po : ℚ) (sys : Opts) (s : ADCState),
        1 ≤ n → 0 ≤ delay → 0 < dw →
        ADC.init n delay (some dw) none fo po sys = .ok s → ADCinv s) ∧
    (∀ (s : ADCState) (v : ℚ) (s2 : ADCState),
        ADCinv s → ADC.set_delay s v = (s2, none) → ADCinv s2) ∧
    (∀ (s : ADCState), ADCinv s →
        ADC.calc_duration s ≠ .error .RangeError) := by
  refine ⟨?_, ?_, ?_⟩
  · intro n delay dw fo po sys s hn hdel hdw h
    rw [ADC.init_dwell_path n delay dw fo po sys hn hdel hdw] at h
    simp only [Except.ok.injEq] at h
    rw [← h]
    exact ⟨hn, hdel, dw, rfl, hdw⟩
  · intro s v s2 hinv h
    obtain ⟨h0, hcalc⟩ := ADC.set_delay_none_inv s v s2 h
    obtain ⟨hns, hdl, hdw⟩ := ADC.calc_duration_ok_inv _ _ hcalc
    obtain ⟨hn1, _, dw, hsdw, hdwpos⟩ := hinv
    refine ⟨?_, ?_, dw, ?_, hdwpos⟩
    · rw [hns]; exact hn1
    · rw [hdl]; exact h0
    · rw [hdw]; exact hsdw
  · intro s hinv
    obtain ⟨hn1, hdel0, dw, hsdw, hdwpos⟩ := hinv
    have hcast : (0 : ℚ) ≤ (s.num_samples : ℚ) := by
      exact_mod_cast le_trans zero_le_one hn1
    have htot : 0 ≤ (s.num_samples : ℚ) * dw + s.delay :=
      add_nonneg (mul_nonneg hcast hdwpos.le) hdel0
    rw [ADC.calc_duration_ok s dw hsdw htot]
    simp

/-- C10 witness: the invariant holds of a concrete ADC state (2 samples,
dwell 1, delay 0), so `_calc_duration` does not fail with RangeError
there. -/
theorem C10_range_error_unreachable_witness :
    ADC.calc_duration
        { delay := 0, duration := none, num_samples := 2, raster_time := 1,
          dwell := some 1, freq_offset := 0, phase_offset := 0 } ≠
      .error .RangeError :=
  C10_range_error_unreachable.2.2 _ ⟨by norm_num, by norm_num, 1, rfl,
    by norm_num⟩

end PyPulseq
